import Mathlib

/-!
Verification of the contribution-heatmap repository (data normalizer in
`index.ts`, layout & markup renderer in `svg-heatmap.ts`).

The TypeScript sources are shallowly embedded below.  JavaScript numbers are
modeled as `Int` (every quantity the claims touch is integer-valued; where the
source produces a fractional pixel coordinate the embedding uses integer
division, which no claim depends on).  JavaScript `undefined` for an optional
value is `Option.none`.  `Date` parsing of the API's `YYYY-MM-DD` strings
(UTC midnight) is modeled by an explicit civil-calendar parser: `getTime()`
is `86400000 *` the day number since the Unix epoch, `getMonth()` is the
zero-based month.  A runtime in the UTC zone is assumed, as the repository's
date strings are date-only and therefore parsed as UTC.
-/

namespace GhHeatmap

/-! ### Dates: model of `new Date("YYYY-MM-DD")` -/

/-- Split a character list on the `-` separator (model of the `YYYY-MM-DD`
field structure consumed by the JS `Date` constructor). -/
def splitDash : List Char → List (List Char) → List Char → List (List Char)
  | [], acc, cur => (acc ++ [cur.reverse])
  | c :: rest, acc, cur =>
    if c = '-' then splitDash rest (acc ++ [cur.reverse]) []
    else splitDash rest acc (c :: cur)

/-- Parse a list of decimal digits; `none` when empty or non-digit. -/
def digitsToNat : List Char → Option Nat
  | [] => none
  | l => l.foldl (fun acc c =>
      match acc with
      | none => none
      | some n => if c.isDigit then some (n * 10 + (c.toNat - 48)) else none)
      (some 0)

/-- Day number since 1970-01-01 of the civil date `(y, m, d)` (the standard
era-based civil-from-days algorithm; all divisions are truncating on the
values that arise, matching the reference algorithm). -/
def daysFromCivil (y m d : Int) : Int :=
  let y' := if m ≤ 2 then y - 1 else y
  let era := (if 0 ≤ y' then y' else y' - 399) / 400
  let yoe := y' - era * 400
  let doy := (153 * (m + (if 2 < m then -3 else 9)) + 2) / 5 + d - 1
  let doe := yoe * 365 + yoe / 4 - yoe / 100 + doy
  era * 146097 + doe - 719468

/-- Parse `YYYY-MM-DD` into `(year, month 1-12, day)`. -/
def parseYMD (s : String) : Option (Int × Int × Int) :=
  match (splitDash s.data [] []).map digitsToNat with
  | [some y, some m, some d] => some ((y : Int), (m : Int), (d : Int))
  | _ => none

/-- Model of `new Date(s).getTime() / 86400000`: the epoch-day number of the
parsed date.  Malformed dates (a caller contract violation, spec §4.1) are
mapped to day 0. -/
def dateEpochDay (s : String) : Int :=
  match parseYMD s with
  | some (y, m, d) => daysFromCivil y m d
  | none => 0

/-- Model of `new Date(s).getTime()` (milliseconds since the epoch). -/
def dateGetTime (s : String) : Int :=
  86400000 * dateEpochDay s

/-- Model of `new Date(s).getMonth()`: zero-based month (UTC runtime). -/
def dateMonth0 (s : String) : Int :=
  match parseYMD s with
  | some (_, m, _) => m - 1
  | none => 0

/-! ### Data model (`index.ts` interfaces) -/

/-- `ContributionDay` of `index.ts`. -/
structure ContributionDay where
  date : String
  contributionCount : Int
  color : String
  weekday : Int
  deriving Repr, DecidableEq

/-- `ContributionWeek` of `index.ts`. -/
structure ContributionWeek where
  contributionDays : List ContributionDay
  firstDay : String
  deriving Repr, DecidableEq

/-- `ContributionCalendar` of `index.ts`. -/
structure ContributionCalendar where
  totalContributions : Int
  weeks : List ContributionWeek
  deriving Repr, DecidableEq

/-! ### `SVGHeatmapGenerator.getContributionLevel` -/

/-- `getContributionLevel` of `svg-heatmap.ts` (count → color bucket). -/
def getContributionLevel (count : Int) : Int :=
  if count = 0 then 0
  else if count ≤ 3 then 1
  else if count ≤ 6 then 2
  else if count ≤ 9 then 3
  else 4

/-! ### Streaks and statistics (`GitHubContributionFetcher`, `index.ts`) -/

/-- `isConsecutiveDay` of `index.ts`: absolute time difference in
milliseconds, divided (with `Math.ceil`) by one day, compared to 1. -/
def isConsecutiveDay (date1 date2 : String) : Bool :=
  let d1 := dateGetTime date1
  let d2 := dateGetTime date2
  let diffTime := (d2 - d1).natAbs
  let diffDays := (diffTime + 86400000 - 1) / 86400000
  diffDays == 1

/-- Stable insertion of a day into a list already sorted by parsed time
(model of the comparator `new Date(a.date).getTime() - new Date(b.date).getTime()`
passed to `Array.prototype.sort`, which sorts stably). -/
def orderedInsertByTime (d : ContributionDay) :
    List ContributionDay → List ContributionDay
  | [] => [d]
  | e :: l =>
    if dateGetTime d.date ≤ dateGetTime e.date then d :: e :: l
    else e :: orderedInsertByTime d l

/-- `days.sort((a, b) => ...)` of `calculateStreaks`: sort ascending by
parsed date time. -/
def sortByDate (days : List ContributionDay) : List ContributionDay :=
  days.foldr orderedInsertByTime []

/-- Result record of `calculateStreaks`. -/
structure Streaks where
  current : Nat
  longest : Nat
  deriving Repr, DecidableEq

/-- The three mutable counters of the `calculateStreaks` loop. -/
structure StreakState where
  currentStreak : Nat
  longestStreak : Nat
  tempStreak : Nat
  deriving Repr, DecidableEq

/-- One iteration of the `calculateStreaks` loop at index `i`.  `next` is
`sortedDays[i + 1]` (`none` when `i` is the last index, which makes the
disjunct `i === sortedDays.length - 1` true). -/
def streakStep (next : Option ContributionDay) (day : ContributionDay)
    (s : StreakState) : StreakState :=
  if 0 < day.contributionCount then
    let temp := s.tempStreak + 1
    let longest := max s.longestStreak temp
    let current :=
      match next with
      | none => temp
      | some nd => if isConsecutiveDay nd.date day.date then temp else s.currentStreak
    { currentStreak := current, longestStreak := longest, tempStreak := temp }
  else
    { s with tempStreak := 0 }

/-- The `for (let i = sortedDays.length - 1; i >= 0; i--)` loop: the list
argument is the sorted list reversed, so the head is the most recent day;
`next` carries the previously visited (one-later) day. -/
def streakLoop :
    Option ContributionDay → List ContributionDay → StreakState → StreakState
  | _, [], s => s
  | next, day :: rest, s => streakLoop (some day) rest (streakStep next day s)

/-- `calculateStreaks` of `index.ts`. -/
def calculateStreaks (days : List ContributionDay) : Streaks :=
  let sortedDays := sortByDate days
  let final := streakLoop none sortedDays.reverse
    { currentStreak := 0, longestStreak := 0, tempStreak := 0 }
  { current := final.currentStreak, longest := final.longestStreak }

/-- JS `Math.max(...xs)` over integers: `-Infinity` (modeled `⊥`) on the
empty argument list, otherwise the maximum. -/
def jsMathMax (l : List Int) : WithBot Int :=
  l.foldl (fun acc (c : Int) => max acc (c : WithBot Int)) ⊥

/-- The `stats` object built by `processContributionDataForHeatmap`.
`averageContributions` (floating-point), the `contributionMap`, the
weekday/month groupings and the raw `summary` echo are omitted: no claim
mentions them. -/
structure HeatmapStats where
  totalContributions : Int
  maxContributions : WithBot Int
  streaks : Streaks

/-- Result of `processContributionDataForHeatmap` (the fields the claims
are about). -/
structure ProcessedData where
  allDays : List ContributionDay
  stats : HeatmapStats

/-- `processContributionDataForHeatmap` of `index.ts`: flatten the weeks,
then derive the statistics. -/
def processContributionDataForHeatmap (cal : ContributionCalendar) :
    ProcessedData :=
  let allDays := cal.weeks.flatMap (·.contributionDays)
  { allDays := allDays
    stats :=
      { totalContributions := cal.totalContributions
        maxContributions := jsMathMax (allDays.map (·.contributionCount))
        streaks := calculateStreaks allDays } }

/-! ### Reference notions for the streak claims (from the spec's wording) -/

/-- One step of a plain maximum-positive-run scan over a count list: the pair
is `(length of the current run, best run length so far)`. -/
def maxRunStep (s : Nat × Nat) (c : Int) : Nat × Nat :=
  if 0 < c then (s.1 + 1, max s.2 (s.1 + 1)) else (0, s.2)

/-- Boolean positivity test on counts. -/
def posPred (c : Int) : Bool := decide (0 < c)

/-- The maximal all-positive tail of a count list. -/
def posTail (l : List Int) : List Int := (l.reverse.takeWhile posPred).reverse

/-- Length of the maximal all-positive tail. -/
def posTailLen (l : List Int) : Nat := (l.reverse.takeWhile posPred).length

/-- All counts in the list are positive. -/
def allPos (m : List Int) : Prop := ∀ c ∈ m, 0 < c

/-! ### Renderer options (`svg-heatmap.ts`) -/

/-- The optional `padding` bag of `HeatmapOptions`; each field may be absent
(JS `undefined`). -/
structure PaddingOpts where
  top : Option Int := none
  right : Option Int := none
  bottom : Option Int := none
  left : Option Int := none
  deriving Repr, DecidableEq

/-- Caller-supplied `HeatmapOptions` (every field optional). -/
structure HeatmapOptions where
  cellSize : Option Int := none
  cellPadding : Option Int := none
  fontSize : Option Int := none
  fontFamily : Option String := none
  colors : Option (List String) := none
  showMonthLabels : Option Bool := none
  showDayLabels : Option Bool := none
  showTooltips : Option Bool := none
  showLegend : Option Bool := none
  showTitle : Option Bool := none
  showSummary : Option Bool := none
  borderRadius : Option Int := none
  width : Option Int := none
  height : Option Int := none
  padding : Option PaddingOpts := none

/-- `Required<HeatmapOptions>`: the merged option record.  The `padding`
sub-object still has optional fields, because the JS spread
`{...defaultOptions, ...options}` replaces the whole `padding` object when the
caller supplies one, so individual padding fields can remain `undefined`. -/
structure ResolvedOptions where
  cellSize : Int
  cellPadding : Int
  fontSize : Int
  fontFamily : String
  colors : List String
  showMonthLabels : Bool
  showDayLabels : Bool
  showTooltips : Bool
  showLegend : Bool
  showTitle : Bool
  showSummary : Bool
  borderRadius : Int
  width : Int
  height : Int
  padding : PaddingOpts

/-- `defaultOptions.padding` of `SVGHeatmapGenerator`. -/
def defaultPadding : PaddingOpts :=
  { top := some 10, right := some 10, bottom := some 20, left := some 10 }

/-- `defaultOptions` of `SVGHeatmapGenerator`. -/
def defaultOptions : ResolvedOptions where
  cellSize := 11
  cellPadding := 2
  fontSize := 9
  fontFamily := "-apple-system, BlinkMacSystemFont, \x27Segoe UI\x27, Helvetica, Arial, sans-serif"
  colors := ["#ebedf0", "#9be9a8", "#40c463", "#30a14e", "#216e39"]
  showMonthLabels := true
  showDayLabels := true
  showTooltips := true
  showLegend := true
  showTitle := true
  showSummary := true
  borderRadius := 0
  width := 0
  height := 0
  padding := defaultPadding

/-- The spread merge `{ ...this.defaultOptions, ...options }`: a present
caller field overrides the default wholesale (the nested `padding` object is
replaced, not merged per-field). -/
def mergeOptions (o : HeatmapOptions) : ResolvedOptions where
  cellSize := o.cellSize.getD defaultOptions.cellSize
  cellPadding := o.cellPadding.getD defaultOptions.cellPadding
  fontSize := o.fontSize.getD defaultOptions.fontSize
  fontFamily := o.fontFamily.getD defaultOptions.fontFamily
  colors := o.colors.getD defaultOptions.colors
  showMonthLabels := o.showMonthLabels.getD defaultOptions.showMonthLabels
  showDayLabels := o.showDayLabels.getD defaultOptions.showDayLabels
  showTooltips := o.showTooltips.getD defaultOptions.showTooltips
  showLegend := o.showLegend.getD defaultOptions.showLegend
  showTitle := o.showTitle.getD defaultOptions.showTitle
  showSummary := o.showSummary.getD defaultOptions.showSummary
  borderRadius := o.borderRadius.getD defaultOptions.borderRadius
  width := o.width.getD defaultOptions.width
  height := o.height.getD defaultOptions.height
  padding := o.padding.getD defaultOptions.padding

/-- `HeatmapData` of `svg-heatmap.ts`. -/
structure HeatmapData where
  weeks : List ContributionWeek
  totalContributions : Int
  username : Option String := none

/-- `LayoutDimensions` of `svg-heatmap.ts`. -/
structure LayoutDimensions where
  graphWidth : Int
  graphHeight : Int
  totalWidth : Int
  totalHeight : Int
  leftPadding : Int
  topPadding : Int
  rightPadding : Int
  bottomPadding : Int

/-- The JS `x || d` idiom on an optional number: `undefined` and `0` are both
falsy, so the default is substituted for either. -/
def jsOrInt (v : Option Int) (d : Int) : Int :=
  match v with
  | none => d
  | some x => if x = 0 then d else x

/-- `calculateDimensions` of `svg-heatmap.ts`. -/
def calculateDimensions (data : HeatmapData) (opts : ResolvedOptions) :
    LayoutDimensions :=
  let weeksCount : Int := data.weeks.length
  let daysCount : Int := 7
  let graphWidth := weeksCount * (opts.cellSize + opts.cellPadding) - opts.cellPadding
  let graphHeight := daysCount * (opts.cellSize + opts.cellPadding) - opts.cellPadding
  let leftPadding := if opts.showDayLabels then 30 else jsOrInt opts.padding.left 10
  let topPadding := if opts.showMonthLabels then 20 else jsOrInt opts.padding.top 10
  let bottomPadding := jsOrInt opts.padding.bottom 20
  let rightPadding := jsOrInt opts.padding.right 10
  { graphWidth := graphWidth
    graphHeight := graphHeight
    totalWidth := leftPadding + graphWidth + rightPadding
    totalHeight := topPadding + graphHeight + bottomPadding
    leftPadding := leftPadding
    topPadding := topPadding
    rightPadding := rightPadding
    bottomPadding := bottomPadding }

/-! ### Markup stages of `generateSVG` (`svg-heatmap.ts`)

String templates are reproduced with `++`; `toString` renders the integer
quantities exactly as JS template interpolation does.  Literal braces in the
CSS block are written with `\x7b`/`\x7d` escapes and apostrophes with `\x27`.
The two places where the source divides a pixel quantity by 2 (title x,
day-label y) use integer division; no claim depends on those coordinates. -/

/-- The twelve `monthNames` of `generateMonthLabels` (also the short month
names of the `en-US` tooltip date format). -/
def monthNames : List String :=
  ["Jan", "Feb", "Mar", "Apr", "May", "Jun", "Jul", "Aug", "Sep", "Oct", "Nov", "Dec"]

/-- Short weekday names of the `en-US` locale, `Sun` first. -/
def weekdayNames : List String :=
  ["Sun", "Mon", "Tue", "Wed", "Thu", "Fri", "Sat"]

/-- Model of `Date#toLocaleDateString('en-US', { weekday: 'short',
month: 'short', day: 'numeric', year: 'numeric' })` (an external runtime
facility): e.g. `Fri, Jan 5, 2024`.  The epoch (day 0) was a Thursday. -/
def localeDateStringEnUS (s : String) : String :=
  match parseYMD s with
  | some (y, m, d) =>
    let wd := ((dateEpochDay s + 4) % 7 + 7) % 7
    weekdayNames.getD wd.toNat "" ++ ", " ++
      monthNames.getD (m - 1).toNat "" ++ " " ++ toString d ++ ", " ++ toString y
  | none => "Invalid Date"

/-- `formatTooltip` of `svg-heatmap.ts` (singular/plural agreement on the
count). -/
def formatTooltip (day : ContributionDay) : String :=
  let contributionText :=
    if day.contributionCount = 1 then "1 contribution"
    else toString day.contributionCount ++ " contributions"
  contributionText ++ " on " ++ localeDateStringEnUS day.date

/-- The palette access `opts.colors[level]` as an optional lookup; in JS an
out-of-range index yields `undefined`. -/
def cellColor (opts : ResolvedOptions) (count : Int) : Option String :=
  opts.colors.get? (getContributionLevel count).toNat

/-- One `<text>` element emitted by `generateMonthLabels` at `weekIndex`. -/
def monthLabelText (leftPadding topPadding : Int) (opts : ResolvedOptions)
    (weekIndex : Nat) (currentMonth : Int) : String :=
  "<text x=\"" ++
    toString (leftPadding + (weekIndex : Int) * (opts.cellSize + opts.cellPadding)) ++
    "\" y=\"" ++ toString (topPadding - 5) ++ "\" class=\"month-label\">" ++
    monthNames.getD currentMonth.toNat "undefined" ++ "</text>"

/-- The `weeks.forEach` scan of `generateMonthLabels`: `lastMonth` starts at
`-1` and is only updated when a label is emitted; a label is emitted when the
month of the week's first day differs from `lastMonth` AND `weekIndex > 0`. -/
def monthLabelsGo (opts : ResolvedOptions) (leftPadding topPadding : Int) :
    List ContributionWeek → Nat → Int → String → String
  | [], _, _, labels => labels
  | w :: rest, weekIndex, lastMonth, labels =>
    let currentMonth := dateMonth0 w.firstDay
    if currentMonth ≠ lastMonth ∧ weekIndex > 0 then
      monthLabelsGo opts leftPadding topPadding rest (weekIndex + 1) currentMonth
        (labels ++ monthLabelText leftPadding topPadding opts weekIndex currentMonth)
    else
      monthLabelsGo opts leftPadding topPadding rest (weekIndex + 1) lastMonth labels

/-- `generateMonthLabels` of `svg-heatmap.ts`. -/
def generateMonthLabels (weeks : List ContributionWeek)
    (leftPadding topPadding : Int) (opts : ResolvedOptions) : String :=
  monthLabelsGo opts leftPadding topPadding weeks 0 (-1) ""

/-- One day-of-week label element (`generateDayLabels` loop body). -/
def dayLabelText (leftPadding topPadding : Int) (opts : ResolvedOptions)
    (index : Nat) (label : String) : String :=
  "<text x=\"" ++ toString (leftPadding - 10) ++ "\" y=\"" ++
    toString (topPadding + (index : Int) * (opts.cellSize + opts.cellPadding) +
      opts.cellSize / 2 + 3) ++
    "\" text-anchor=\"end\" class=\"day-label\">" ++ label ++ "</text>"

/-- `generateDayLabels` of `svg-heatmap.ts`: of the seven slots
`['', 'Mon', '', 'Wed', '', 'Fri', '']` only the truthy labels at indices
1, 3, 5 are emitted. -/
def generateDayLabels (leftPadding topPadding : Int)
    (opts : ResolvedOptions) : String :=
  dayLabelText leftPadding topPadding opts 1 "Mon" ++
    dayLabelText leftPadding topPadding opts 3 "Wed" ++
    dayLabelText leftPadding topPadding opts 5 "Fri"

/-- `generateStyles` of `svg-heatmap.ts` (CSS braces escaped). -/
def generateStyles (opts : ResolvedOptions) : String :=
  "\n      <style>\n        .day-label \x7b \n          font-family: " ++
    opts.fontFamily ++ "; \n          font-size: " ++ toString opts.fontSize ++
    "px; \n          fill: #656d76; \n        \x7d\n        .month-label \x7b \n          font-family: " ++
    opts.fontFamily ++ "; \n          font-size: " ++ toString opts.fontSize ++
    "px; \n          fill: #656d76; \n        \x7d\n        .title \x7b \n          font-family: " ++
    opts.fontFamily ++ "; \n          font-size: " ++ toString (opts.fontSize + 2) ++
    "px; \n          font-weight: 600; \n          fill: #24292f; \n        \x7d\n        .summary \x7b \n          font-family: " ++
    opts.fontFamily ++ "; \n          font-size: " ++ toString (opts.fontSize - 1) ++
    "px; \n          fill: #656d76; \n        \x7d\n        .legend-text \x7b \n          font-family: " ++
    opts.fontFamily ++ "; \n          font-size: " ++ toString (opts.fontSize - 1) ++
    "px; \n          fill: #656d76; \n        \x7d\n        .contribution-square \x7b \n          stroke: rgba(27,31,35,0.06); \n          stroke-width: 1; \n          shape-rendering: crispEdges; \n        \x7d\n        " ++
    (if opts.showTooltips then
      ".contribution-square:hover \x7b stroke: #24292f; stroke-width: 2; \x7d"
    else "") ++
    "\n      </style>\n    "

/-- `generateTitle` of `svg-heatmap.ts`. -/
def generateTitle (username : String) (dims : LayoutDimensions)
    (_opts : ResolvedOptions) : String :=
  "<text x=\"" ++ toString (dims.totalWidth / 2) ++
    "\" y=\"15\" text-anchor=\"middle\" class=\"title\">" ++ username ++
    "\x27s Contribution Graph</text>"

/-- `generateSummary` of `svg-heatmap.ts`: bottom-left total text. -/
def generateSummary (totalContributions : Int) (dims : LayoutDimensions)
    (_opts : ResolvedOptions) : String :=
  "<text x=\"" ++ toString dims.leftPadding ++ "\" y=\"" ++
    toString (dims.totalHeight - 5) ++ "\" class=\"summary\">" ++
    (toString totalContributions ++ " contributions this year</text>")

/-- One `<rect>` of `generateContributionSquares` (week column `weekIndex`). -/
def squareRect (leftPadding topPadding : Int) (opts : ResolvedOptions)
    (weekIndex : Nat) (day : ContributionDay) : String :=
  let x := leftPadding + (weekIndex : Int) * (opts.cellSize + opts.cellPadding)
  let y := topPadding + day.weekday * (opts.cellSize + opts.cellPadding)
  let level := getContributionLevel day.contributionCount
  let color := (cellColor opts day.contributionCount).getD "undefined"
  let tooltip :=
    if opts.showTooltips then "<title>" ++ formatTooltip day ++ "</title>" else ""
  let borderRadiusAttr :=
    if 0 < opts.borderRadius then
      "rx=\"" ++ toString opts.borderRadius ++ "\" ry=\"" ++
        toString opts.borderRadius ++ "\""
    else ""
  "\n          <rect \n            x=\"" ++ toString x ++
    "\" \n            y=\"" ++ toString y ++
    "\" \n            width=\"" ++ toString opts.cellSize ++
    "\" \n            height=\"" ++ toString opts.cellSize ++
    "\" \n            " ++ borderRadiusAttr ++
    "\n            fill=\"" ++ color ++
    "\" \n            class=\"contribution-square\"\n            data-date=\"" ++
    day.date ++ "\"\n            data-count=\"" ++
    toString day.contributionCount ++ "\"\n            data-level=\"" ++
    toString level ++ "\"\n          >\n            " ++ tooltip ++
    "\n          </rect>\n        "

/-- The inner `week.contributionDays.forEach` of
`generateContributionSquares`. -/
def daySquares (leftPadding topPadding : Int) (opts : ResolvedOptions)
    (weekIndex : Nat) : List ContributionDay → String
  | [] => ""
  | d :: ds =>
    squareRect leftPadding topPadding opts weekIndex d ++
      daySquares leftPadding topPadding opts weekIndex ds

/-- The outer `weeks.forEach` of `generateContributionSquares`. -/
def weekSquares (leftPadding topPadding : Int) (opts : ResolvedOptions) :
    Nat → List ContributionWeek → String
  | _, [] => ""
  | weekIndex, w :: rest =>
    daySquares leftPadding topPadding opts weekIndex w.contributionDays ++
      weekSquares leftPadding topPadding opts (weekIndex + 1) rest

/-- `generateContributionSquares` of `svg-heatmap.ts`. -/
def generateContributionSquares (weeks : List ContributionWeek)
    (leftPadding topPadding : Int) (opts : ResolvedOptions) : String :=
  weekSquares leftPadding topPadding opts 0 weeks

/-- One legend swatch `<rect>` (`generateLegend` loop body). -/
def legendSwatch (legendX legendY : Int) (opts : ResolvedOptions)
    (index : Nat) (color : String) : String :=
  let borderRadiusAttr :=
    if 0 < opts.borderRadius then
      "rx=\"" ++ toString opts.borderRadius ++ "\" ry=\"" ++
        toString opts.borderRadius ++ "\""
    else ""
  "\n        <rect \n          x=\"" ++
    toString (legendX + (index : Int) * (opts.cellSize + 2)) ++
    "\" \n          y=\"" ++ toString (legendY - opts.cellSize) ++
    "\" \n          width=\"" ++ toString opts.cellSize ++
    "\" \n          height=\"" ++ toString opts.cellSize ++
    "\" \n          " ++ borderRadiusAttr ++
    "\n          fill=\"" ++ color ++
    "\" \n          stroke=\"rgba(27,31,35,0.06)\" \n          stroke-width=\"1\"\n        />\n      "

/-- The `opts.colors.forEach` of `generateLegend`. -/
def legendSwatches (legendX legendY : Int) (opts : ResolvedOptions) :
    Nat → List String → String
  | _, [] => ""
  | index, color :: rest =>
    legendSwatch legendX legendY opts index color ++
      legendSwatches legendX legendY opts (index + 1) rest

/-- `generateLegend` of `svg-heatmap.ts`. -/
def generateLegend (totalWidth totalHeight : Int)
    (opts : ResolvedOptions) : String :=
  let legendX := totalWidth - 150
  let legendY := totalHeight - 15
  "<text x=\"" ++ toString (legendX - 10) ++ "\" y=\"" ++ toString legendY ++
    "\" text-anchor=\"end\" class=\"legend-text\">Less</text>" ++
    legendSwatches legendX legendY opts 0 opts.colors ++
    ("<text x=\"" ++
      toString (legendX + (opts.colors.length : Int) * (opts.cellSize + 2) + 5) ++
      "\" y=\"" ++ toString legendY ++ "\" class=\"legend-text\">More</text>")

/-- Stages 1–7 of the `generateSVG` pipeline (everything the source appends
before the summary text): document open tag, styles, optional title (only
when the username is truthy, i.e. present and non-empty, and the title toggle
is on), optional day labels, optional month labels, the grid squares, and
the optional legend — in source order. -/
def svgPrefixStages (data : HeatmapData) (opts : ResolvedOptions)
    (dims : LayoutDimensions) : String :=
  "<svg width=\"" ++ toString dims.totalWidth ++ "\" height=\"" ++
    toString dims.totalHeight ++ "\" xmlns=\"http://www.w3.org/2000/svg\">" ++
    generateStyles opts ++
    (match data.username with
     | some u => if u ≠ "" ∧ opts.showTitle then generateTitle u dims opts else ""
     | none => "") ++
    (if opts.showDayLabels then
      generateDayLabels dims.leftPadding dims.topPadding opts
    else "") ++
    (if opts.showMonthLabels then
      generateMonthLabels data.weeks dims.leftPadding dims.topPadding opts
    else "") ++
    generateContributionSquares data.weeks dims.leftPadding dims.topPadding opts ++
    (if opts.showLegend then generateLegend dims.totalWidth dims.totalHeight opts
    else "")

/-- `generateSVG` of `svg-heatmap.ts`: merge the options, compute the
dimensions, then append the pipeline stages, the optional summary and the
closing tag. -/
def generateSVG (data : HeatmapData) (options : HeatmapOptions) : String :=
  svgPrefixStages data (mergeOptions options)
      (calculateDimensions data (mergeOptions options)) ++
    ((if (mergeOptions options).showSummary then
        generateSummary data.totalContributions
          (calculateDimensions data (mergeOptions options)) (mergeOptions options)
      else "") ++
      "</svg>")

/-- All palette lookups performed by the grid stage succeed. -/
def squaresOk (opts : ResolvedOptions) (weeks : List ContributionWeek) : Bool :=
  weeks.all fun w =>
    w.contributionDays.all fun d => (cellColor opts d.contributionCount).isSome

/-- `generateSVG` with its only partial operation (the palette index
`opts.colors[level]`) made explicit: `none` exactly when some cell's palette
lookup would fall off the palette (JS would silently print `undefined`). -/
def generateSVGChecked (data : HeatmapData) (options : HeatmapOptions) :
    Option String :=
  if squaresOk (mergeOptions options) data.weeks then
    some (generateSVG data options)
  else none

end GhHeatmap

namespace GhHeatmap

/-- C1: `getContributionLevel` maps every non-negative count by the fixed
threshold table (0↦0, 1–3↦1, 4–6↦2, 7–9↦3, ≥10↦4), with the listed boundary
values. -/
theorem getContributionLevel_threshold_table (c : Int) (h0 : 0 ≤ c) :
    (c = 0 → getContributionLevel c = 0) ∧
    (1 ≤ c → c ≤ 3 → getContributionLevel c = 1) ∧
    (4 ≤ c → c ≤ 6 → getContributionLevel c = 2) ∧
    (7 ≤ c → c ≤ 9 → getContributionLevel c = 3) ∧
    (10 ≤ c → getContributionLevel c = 4) ∧
    getContributionLevel 0 = 0 ∧ getContributionLevel 3 = 1 ∧
    getContributionLevel 4 = 2 ∧ getContributionLevel 6 = 2 ∧
    getContributionLevel 7 = 3 ∧ getContributionLevel 9 = 3 ∧
    getContributionLevel 10 = 4 ∧ getContributionLevel 1000 = 4 := by
  unfold getContributionLevel
  refine ⟨?_, ?_, ?_, ?_, ?_, by decide, by decide, by decide, by decide,
    by decide, by decide, by decide, by decide⟩ <;>
    · intros; split_ifs <;> omega

/-- Witness for C1 at `c = 5`. -/
theorem getContributionLevel_threshold_table_witness :
    (5 : Int) ≤ 6 ∧ getContributionLevel 5 = 2 :=
  ⟨by decide, (getContributionLevel_threshold_table 5 (by decide)).2.2.1
    (by decide) (by decide)⟩

/-- C8: on non-negative counts, `getContributionLevel` always lies in `[0,4]`
and is monotone non-decreasing. -/
theorem getContributionLevel_range_mono (a b : Int) (h0 : 0 ≤ a) (hab : a ≤ b) :
    (0 ≤ getContributionLevel a ∧ getContributionLevel a ≤ 4) ∧
    (0 ≤ getContributionLevel b ∧ getContributionLevel b ≤ 4) ∧
    getContributionLevel a ≤ getContributionLevel b := by
  unfold getContributionLevel
  split_ifs <;> omega

/-- Witness for C8 at `a = 2, b = 8`. -/
theorem getContributionLevel_range_mono_witness :
    (0 ≤ getContributionLevel 2 ∧ getContributionLevel 2 ≤ 4) ∧
    (0 ≤ getContributionLevel 8 ∧ getContributionLevel 8 ≤ 4) ∧
    getContributionLevel 2 ≤ getContributionLevel 8 :=
  getContributionLevel_range_mono 2 8 (by decide) (by decide)

/-- A 53-week calendar of empty weeks, used to instantiate the dimension
claims at the spec's concrete numbers. -/
def calendar53 : HeatmapData :=
  { weeks := List.replicate 53 { contributionDays := [], firstDay := "2024-01-01" }
    totalContributions := 0 }

/-- C6: `calculateDimensions` computes grid width
`weeksCount * (cellSize + cellPadding) - cellPadding` and grid height
`7 * (cellSize + cellPadding) - cellPadding`; for 53 weeks with cell size 11
and cell padding 2 the grid width is 687. -/
theorem calculateDimensions_graph_size :
    (∀ (data : HeatmapData) (opts : ResolvedOptions),
      (calculateDimensions data opts).graphWidth =
        (data.weeks.length : Int) * (opts.cellSize + opts.cellPadding) -
          opts.cellPadding ∧
      (calculateDimensions data opts).graphHeight =
        7 * (opts.cellSize + opts.cellPadding) - opts.cellPadding) ∧
    (calculateDimensions calendar53 defaultOptions).graphWidth = 687 := by
  refine ⟨fun data opts => ⟨rfl, rfl⟩, ?_⟩
  decide

/-- C10: an explicit padding value of `0` is replaced by the default margin
(left 10 when day labels are off, top 10 when month labels are off, right 10,
bottom 20): the `padding.x || default` idiom treats `0` as falsy, so a zero
margin cannot be configured. -/
theorem calculateDimensions_zero_padding_defaulted
    (data : HeatmapData) (o : HeatmapOptions) :
    ((mergeOptions o).showDayLabels = false →
      (mergeOptions o).padding.left = some 0 →
      (calculateDimensions data (mergeOptions o)).leftPadding = 10) ∧
    ((mergeOptions o).showMonthLabels = false →
      (mergeOptions o).padding.top = some 0 →
      (calculateDimensions data (mergeOptions o)).topPadding = 10) ∧
    ((mergeOptions o).padding.right = some 0 →
      (calculateDimensions data (mergeOptions o)).rightPadding = 10) ∧
    ((mergeOptions o).padding.bottom = some 0 →
      (calculateDimensions data (mergeOptions o)).bottomPadding = 20) := by
  refine ⟨fun hd hl => ?_, fun hm ht => ?_, fun hr => ?_, fun hb => ?_⟩ <;>
    simp [calculateDimensions, jsOrInt, *]

/-- Witness for C10: all four zero paddings supplied explicitly, labels off. -/
theorem calculateDimensions_zero_padding_defaulted_witness :
    (calculateDimensions
        (HeatmapData.mk [] 0 none)
        (mergeOptions
          { showDayLabels := some false, showMonthLabels := some false
            padding := some (PaddingOpts.mk (some 0) (some 0) (some 0) (some 0)) })).leftPadding
        = 10 ∧
    (calculateDimensions
        (HeatmapData.mk [] 0 none)
        (mergeOptions
          { showDayLabels := some false, showMonthLabels := some false
            padding := some (PaddingOpts.mk (some 0) (some 0) (some 0) (some 0)) })).topPadding
        = 10 ∧
    (calculateDimensions
        (HeatmapData.mk [] 0 none)
        (mergeOptions
          { showDayLabels := some false, showMonthLabels := some false
            padding := some (PaddingOpts.mk (some 0) (some 0) (some 0) (some 0)) })).rightPadding
        = 10 ∧
    (calculateDimensions
        (HeatmapData.mk [] 0 none)
        (mergeOptions
          { showDayLabels := some false, showMonthLabels := some false
            padding := some (PaddingOpts.mk (some 0) (some 0) (some 0) (some 0)) })).bottomPadding
        = 20 := by
  have h := calculateDimensions_zero_padding_defaulted
    (HeatmapData.mk [] 0 none)
    { showDayLabels := some false, showMonthLabels := some false
      padding := some (PaddingOpts.mk (some 0) (some 0) (some 0) (some 0)) }
  exact ⟨h.1 rfl rfl, h.2.1 rfl rfl, h.2.2.1 rfl, h.2.2.2 rfl⟩

/-! ### Streak lemmas -/

lemma streakLoop_temp_longest (l : List ContributionDay) :
    ∀ (next : Option ContributionDay) (s : StreakState),
    ((streakLoop next l s).tempStreak, (streakLoop next l s).longestStreak) =
      List.foldl maxRunStep (s.tempStreak, s.longestStreak)
        (l.map (·.contributionCount)) := by
  induction l with
  | nil => intro next s; rfl
  | cons d rest ih =>
    intro next s
    simp only [streakLoop, List.map_cons, List.foldl_cons]
    rw [ih]
    congr 1
    unfold streakStep maxRunStep
    by_cases h : 0 < d.contributionCount
    · simp [h]
    · simp [h]

lemma maxRunStep_fst (s : Nat × Nat) (c : Int) :
    (maxRunStep s c).1 = if 0 < c then s.1 + 1 else 0 := by
  unfold maxRunStep
  split <;> rfl

lemma maxRunStep_snd (s : Nat × Nat) (c : Int) :
    (maxRunStep s c).2 = if 0 < c then max s.2 (s.1 + 1) else s.2 := by
  unfold maxRunStep
  split <;> rfl

lemma foldl_maxRunStep_snoc (l : List Int) (c : Int) (s : Nat × Nat) :
    List.foldl maxRunStep s (l ++ [c]) = maxRunStep (List.foldl maxRunStep s l) c := by
  simp [List.foldl_append]

lemma posTailLen_snoc (l : List Int) (c : Int) :
    posTailLen (l ++ [c]) = if 0 < c then posTailLen l + 1 else 0 := by
  by_cases h : 0 < c
  · simp [posTailLen, List.reverse_append, List.takeWhile_cons, posPred, h,
      Nat.add_comm]
  · simp [posTailLen, List.reverse_append, List.takeWhile_cons, posPred, h]

lemma foldl_maxRunStep_fst (l : List Int) :
    (List.foldl maxRunStep (0, 0) l).1 = posTailLen l := by
  induction l using List.reverseRecOn with
  | nil => rfl
  | append_singleton l c ih =>
    rw [foldl_maxRunStep_snoc, posTailLen_snoc, maxRunStep_fst, ih]

lemma posTail_decomp (l : List Int) :
    l = (l.reverse.dropWhile posPred).reverse ++ posTail l := by
  unfold posTail
  calc l = l.reverse.reverse := (List.reverse_reverse l).symm
  _ = (l.reverse.takeWhile posPred ++ l.reverse.dropWhile posPred).reverse := by
      rw [List.takeWhile_append_dropWhile]
  _ = (l.reverse.dropWhile posPred).reverse ++ (l.reverse.takeWhile posPred).reverse := by
      rw [List.reverse_append]

lemma allPos_posTail (l : List Int) : allPos (posTail l) := by
  intro c hc
  unfold posTail at hc
  rw [List.mem_reverse] at hc
  have := List.mem_takeWhile_imp hc
  simpa [posPred] using this

lemma posTail_length (l : List Int) : (posTail l).length = posTailLen l := by
  simp [posTail, posTailLen]

lemma foldl_maxRunStep_exists (l : List Int) :
    ∃ p m q, l = p ++ m ++ q ∧
      m.length = (List.foldl maxRunStep (0, 0) l).2 ∧ allPos m := by
  induction l using List.reverseRecOn with
  | nil => exact ⟨[], [], [], rfl, rfl, by intro c hc; cases hc⟩
  | append_singleton l c ih =>
    obtain ⟨p, m, q, hl, hlen, hpos⟩ := ih
    rw [foldl_maxRunStep_snoc]
    by_cases hc : 0 < c
    · rcases le_or_lt ((List.foldl maxRunStep (0, 0) l).1 + 1)
        ((List.foldl maxRunStep (0, 0) l).2) with hle | hlt
      · refine ⟨p, m, q ++ [c], by rw [hl]; simp, ?_, hpos⟩
        rw [maxRunStep_snd, if_pos hc, max_eq_left hle]
        exact hlen
      · refine ⟨(l.reverse.dropWhile posPred).reverse, posTail l ++ [c], [], ?_, ?_, ?_⟩
        · rw [List.append_nil, ← List.append_assoc, ← posTail_decomp]
        · rw [maxRunStep_snd, if_pos hc, max_eq_right (le_of_lt hlt),
            foldl_maxRunStep_fst]
          simp [posTail_length]
        · intro x hx
          rcases List.mem_append.mp hx with hx | hx
          · exact allPos_posTail l x hx
          · simpa using (List.mem_singleton.mp hx) ▸ hc
    · refine ⟨p, m, q ++ [c], by rw [hl]; simp, ?_, hpos⟩
      rw [maxRunStep_snd, if_neg hc]
      exact hlen

lemma length_le_takeWhile_append (pred : Int → Bool) :
    ∀ (l₁ l₂ : List Int), (∀ x ∈ l₁, pred x) →
      l₁.length ≤ ((l₁ ++ l₂).takeWhile pred).length := by
  intro l₁
  induction l₁ with
  | nil => simp
  | cons x xs ih =>
    intro l₂ h
    have hx : pred x := h x (by simp)
    simp only [List.cons_append, List.takeWhile_cons, hx, if_true,
      List.length_cons]
    exact Nat.succ_le_succ (ih l₂ (fun y hy => h y (by simp [hy])))

lemma allPos_tail_le (p m : List Int) (hpos : allPos m) :
    m.length ≤ posTailLen (p ++ m) := by
  unfold posTailLen
  rw [List.reverse_append]
  have hmem : ∀ x ∈ m.reverse, posPred x := by
    intro x hx
    rw [List.mem_reverse] at hx
    simpa [posPred] using hpos x hx
  have h := length_le_takeWhile_append posPred m.reverse p.reverse hmem
  simpa using h

lemma foldl_maxRunStep_le (l : List Int) :
    ∀ p m q, l = p ++ m ++ q → allPos m →
      m.length ≤ (List.foldl maxRunStep (0, 0) l).2 := by
  induction l using List.reverseRecOn with
  | nil =>
    intro p m q hl _
    have hm : m = [] := by
      rcases List.append_eq_nil.mp hl.symm with ⟨h1, -⟩
      exact (List.append_eq_nil.mp h1).2
    simp [hm]
  | append_singleton l c ih =>
    intro p m q hl hpos
    have hmono : (List.foldl maxRunStep (0, 0) l).2 ≤
        (List.foldl maxRunStep (0, 0) (l ++ [c])).2 := by
      rw [foldl_maxRunStep_snoc, maxRunStep_snd]
      split
      · exact le_max_left _ _
      · exact le_refl _
    rcases List.eq_nil_or_concat q with hq | ⟨q', a, hq⟩
    · subst hq
      rw [List.append_nil] at hl
      rcases List.eq_nil_or_concat m with hm | ⟨m', b, hm⟩
      · simp [hm]
      · rw [List.concat_eq_append] at hm
        subst hm
        rw [← List.append_assoc] at hl
        obtain ⟨hl', hcb⟩ := List.append_inj' hl rfl
        have hb : 0 < b := hpos b (by simp)
        have hc : 0 < c := by
          cases hcb
          exact hb
        have hm' : allPos m' := fun x hx => hpos x (by simp [hx])
        have hlen : m'.length ≤ posTailLen l := by
          rw [hl']
          exact allPos_tail_le p m' hm'
        rw [foldl_maxRunStep_snoc, maxRunStep_snd, if_pos hc]
        simp only [List.length_append, List.length_singleton]
        calc m'.length + 1 ≤ posTailLen l + 1 := by omega
        _ = (List.foldl maxRunStep (0, 0) l).1 + 1 := by rw [foldl_maxRunStep_fst]
        _ ≤ max (List.foldl maxRunStep (0, 0) l).2
              ((List.foldl maxRunStep (0, 0) l).1 + 1) := le_max_right _ _
    · rw [List.concat_eq_append] at hq
      subst hq
      rw [show p ++ m ++ (q' ++ [a]) = (p ++ m ++ q') ++ [a] by simp] at hl
      obtain ⟨hl', -⟩ := List.append_inj' hl rfl
      exact le_trans (ih p m q' hl' hpos) hmono

lemma calculateStreaks_longest_eq_foldl (days : List ContributionDay) :
    (calculateStreaks days).longest =
      (List.foldl maxRunStep (0, 0)
        (((sortByDate days).map (·.contributionCount)).reverse)).2 := by
  unfold calculateStreaks
  have h := streakLoop_temp_longest ((sortByDate days).reverse) none
    { currentStreak := 0, longestStreak := 0, tempStreak := 0 }
  have h2 := congrArg Prod.snd h
  simp only [List.map_reverse] at h2 ⊢
  exact h2

/-- The day list the spec uses to state the current-streak rule: the most
recent day has count 0, the two preceding consecutive days are positive. -/
def zeroTailDays : List ContributionDay :=
  [{ date := "2024-01-01", contributionCount := 5, color := "", weekday := 1 },
   { date := "2024-01-02", contributionCount := 3, color := "", weekday := 2 },
   { date := "2024-01-03", contributionCount := 0, color := "", weekday := 3 }]

/-- C3 (code bug): on `[(d-2,5),(d-1,3),(d,0)]` the claim (and the code's own
comment "Current streak (from today backwards)") require current streak 0,
but the loop still overwrites `currentStreak` while scanning the earlier run,
returning 2: once `tempStreak` resets on the zero day, any earlier positive
day that is consecutive with its successor re-assigns `currentStreak`. -/
theorem calculateStreaks_current_ignores_zero_tail :
    (calculateStreaks zeroTailDays).current = 2 ∧
    (calculateStreaks zeroTailDays).current ≠ 0 := by
  constructor
  · decide
  · decide

/-- Two positive-count days five calendar days apart: not a single streak by
the claim's definition. -/
def gapDays : List ContributionDay :=
  [{ date := "2024-01-01", contributionCount := 1, color := "", weekday := 1 },
   { date := "2024-01-06", contributionCount := 2, color := "", weekday := 6 }]

/-- C4 counterexample: with positive-count days 2024-01-01 and 2024-01-06
(a five-day gap), every run of consecutive calendar dates with positive
counts has length 1, so the claim requires longest streak 1; the code's
`tempStreak` is only reset by zero-count days, never by a date gap, and
`calculateStreaks` returns longest = 2. -/
theorem calculateStreaks_longest_gap_counterexample :
    (calculateStreaks gapDays).longest = 2 ∧
    ¬ (calculateStreaks gapDays).longest = 1 := by
  constructor
  · decide
  · decide

/-- C4 (amended): the longest streak returned by `calculateStreaks` equals
the maximum length of a contiguous block of positive-count days in the
date-sorted list, where blocks are bounded only by zero-count days or the
list ends — a gap of more than one calendar day does NOT break a block. -/
theorem calculateStreaks_longest_pos_run (days : List ContributionDay) :
    (∃ p m q,
        (sortByDate days).map (·.contributionCount) = p ++ m ++ q ∧
        m.length = (calculateStreaks days).longest ∧ allPos m) ∧
    (∀ p m q,
        (sortByDate days).map (·.contributionCount) = p ++ m ++ q →
        allPos m → m.length ≤ (calculateStreaks days).longest) := by
  rw [calculateStreaks_longest_eq_foldl]
  constructor
  · obtain ⟨p, m, q, hl, hlen, hpos⟩ :=
      foldl_maxRunStep_exists (((sortByDate days).map (·.contributionCount)).reverse)
    refine ⟨q.reverse, m.reverse, p.reverse, ?_, ?_, ?_⟩
    · have h := congrArg List.reverse hl
      simpa [List.reverse_append, List.append_assoc] using h
    · simpa using hlen
    · intro x hx
      exact hpos x (List.mem_reverse.mp hx)
  · intro p m q hl hpos
    have h : ((sortByDate days).map (·.contributionCount)).reverse =
        q.reverse ++ m.reverse ++ p.reverse := by
      rw [hl]
      simp [List.reverse_append, List.append_assoc]
    have hle := foldl_maxRunStep_le _ q.reverse m.reverse p.reverse h
      (fun x hx => hpos x (List.mem_reverse.mp hx))
    simpa using hle

/-- Witness for C4 (amended) at `gapDays`: the block `[1]` (the first day
alone) is a positive block of the sorted count list, so its length bounds
`longest`. -/
theorem calculateStreaks_longest_pos_run_witness :
    ([(1 : Int)].length : Nat) ≤ (calculateStreaks gapDays).longest :=
  (calculateStreaks_longest_pos_run gapDays).2 [] [1] [2] (by decide)
    (by intro c hc; simp at hc; omega)

/-! ### Month labels (C2) -/

/-- A five-week calendar whose weeks 0–3 start in January 2024 and whose
week 4 starts in February 2024. -/
def janFebWeeks : List ContributionWeek :=
  [{ contributionDays := [], firstDay := "2024-01-05" },
   { contributionDays := [], firstDay := "2024-01-12" },
   { contributionDays := [], firstDay := "2024-01-19" },
   { contributionDays := [], firstDay := "2024-01-26" },
   { contributionDays := [], firstDay := "2024-02-02" }]

/-- C2 counterexample: on `janFebWeeks` (left padding 30, top padding 20,
default options) the month-label output does contain a January label — at
week 1, x = 30 + 1·13 = 43 — because `lastMonth` is only updated when a
label is emitted, so skipping week 0 leaves the sentinel `-1` in place; and
the output is not the single February label the claim requires. -/
theorem generateMonthLabels_jan_counterexample :
    (∃ b a, (generateMonthLabels janFebWeeks 30 20 defaultOptions).data =
        b ++ "Jan".data ++ a) ∧
    generateMonthLabels janFebWeeks 30 20 defaultOptions ≠
      "<text x=\"82\" y=\"15\" class=\"month-label\">Feb</text>" := by
  constructor
  · exact ⟨"<text x=\"43\" y=\"15\" class=\"month-label\">".data,
      "</text><text x=\"82\" y=\"15\" class=\"month-label\">Feb</text>".data,
      by decide⟩
  · decide

/-- C2 (amended): for every five-week calendar whose weeks 0–3 start in
January and whose week 4 starts in February, the month-label stage emits no
label at week 0, then a January label at week 1's x-position
(`leftPadding + 1·(cellSize+cellPadding)`, because the
previously-labeled-month sentinel is only updated when a label is emitted),
nothing at weeks 2–3, and a February label at week 4's x-position
`leftPadding + 4·(cellSize+cellPadding)` — two labels in all, not one. -/
theorem generateMonthLabels_jan_feb (lp tp : Int) (opts : ResolvedOptions)
    (w0 w1 w2 w3 w4 : ContributionWeek)
    (h0 : dateMonth0 w0.firstDay = 0) (h1 : dateMonth0 w1.firstDay = 0)
    (h2 : dateMonth0 w2.firstDay = 0) (h3 : dateMonth0 w3.firstDay = 0)
    (h4 : dateMonth0 w4.firstDay = 1) :
    generateMonthLabels [w0, w1, w2, w3, w4] lp tp opts =
      monthLabelText lp tp opts 1 0 ++ monthLabelText lp tp opts 4 1 ∧
    monthNames.getD ((0 : Int)).toNat "undefined" = "Jan" ∧
    monthNames.getD ((1 : Int)).toNat "undefined" = "Feb" := by
  refine ⟨?_, by decide, by decide⟩
  unfold generateMonthLabels
  simp [monthLabelsGo, h0, h1, h2, h3, h4, String.empty_append]

/-- Witness for C2 (amended) at `janFebWeeks`. -/
theorem generateMonthLabels_jan_feb_witness :
    generateMonthLabels janFebWeeks 30 20 defaultOptions =
      monthLabelText 30 20 defaultOptions 1 0 ++
        monthLabelText 30 20 defaultOptions 4 1 ∧
    monthNames.getD ((0 : Int)).toNat "undefined" = "Jan" ∧
    monthNames.getD ((1 : Int)).toNat "undefined" = "Feb" :=
  generateMonthLabels_jan_feb 30 20 defaultOptions _ _ _ _ _
    (by decide) (by decide) (by decide) (by decide) (by decide)

/-! ### Substring containment (C7) -/

/-- `t` occurs as a contiguous substring of `s`. -/
def strContains (s t : String) : Prop :=
  ∃ b a, s.data = b ++ t.data ++ a

lemma strContains_appendL {s t : String} (r : String) (h : strContains s t) :
    strContains (s ++ r) t := by
  obtain ⟨b, a, hba⟩ := h
  exact ⟨b, a ++ r.data, by rw [String.data_append, hba]; simp⟩

lemma strContains_appendR {s t : String} (r : String) (h : strContains s t) :
    strContains (r ++ s) t := by
  obtain ⟨b, a, hba⟩ := h
  exact ⟨r.data ++ b, a, by rw [String.data_append, hba]; simp⟩

lemma strContains_head (t r : String) : strContains (t ++ r) t :=
  ⟨[], r.data, by rw [String.data_append]; simp⟩

/-- C7: for any data with 1247 total contributions, rendering with the
summary stage enabled yields markup containing the literal substring "1247"
and the word "contributions" (both inside the summary `<text>` node
"1247 contributions this year"). -/
theorem generateSVG_summary_contains (data : HeatmapData)
    (options : HeatmapOptions) (htot : data.totalContributions = 1247)
    (hsum : (mergeOptions options).showSummary = true) :
    strContains (generateSVG data options) "1247" ∧
    strContains (generateSVG data options) "contributions" := by
  have hs : generateSVG data options =
      svgPrefixStages data (mergeOptions options)
          (calculateDimensions data (mergeOptions options)) ++
        (generateSummary 1247 (calculateDimensions data (mergeOptions options))
            (mergeOptions options) ++
          "</svg>") := by
    unfold generateSVG
    rw [htot, if_pos hsum]
  rw [hs]
  unfold generateSummary
  have h1247 : toString (1247 : Int) = "1247" := rfl
  rw [h1247]
  simp only [String.append_assoc]
  constructor
  · iterate 6 apply strContains_appendR
    exact strContains_head _ _
  · iterate 7 apply strContains_appendR
    apply strContains_appendL
    exact ⟨" ".data, " this year</text>".data, by decide⟩

/-- Witness for C7: empty calendar, default options (summary on),
total 1247. -/
theorem generateSVG_summary_contains_witness :
    strContains
        (generateSVG { weeks := [], totalContributions := 1247 } {}) "1247" ∧
    strContains
        (generateSVG { weeks := [], totalContributions := 1247 } {})
        "contributions" :=
  generateSVG_summary_contains { weeks := [], totalContributions := 1247 } {}
    rfl rfl

/-! ### Totality of the renderer (C9) -/

lemma getContributionLevel_toNat_lt (c : Int) :
    (getContributionLevel c).toNat < 5 := by
  unfold getContributionLevel
  split_ifs <;> decide

lemma cellColor_isSome (opts : ResolvedOptions)
    (hlen : opts.colors.length = 5) (c : Int) :
    (cellColor opts c).isSome := by
  unfold cellColor
  rw [Option.isSome_iff_ne_none]
  intro h
  rw [List.get?_eq_none] at h
  have := getContributionLevel_toNat_lt c
  omega

/-- C9: on well-formed input (weekday in 0–6, non-negative counts, palette
of exactly 5 colors) `generateSVG` is total: the checked pipeline — whose
only partial operation is the palette access `opts.colors[level]` — succeeds
and returns exactly the markup string `generateSVG` produces.  (The
embedding is a pure function: the source renderer performs no I/O and raises
no errors.) -/
theorem generateSVG_total (data : HeatmapData) (options : HeatmapOptions)
    (hcolors : (mergeOptions options).colors.length = 5)
    (hwf : ∀ w ∈ data.weeks, ∀ d ∈ w.contributionDays,
      0 ≤ d.contributionCount ∧ 0 ≤ d.weekday ∧ d.weekday ≤ 6) :
    generateSVGChecked data options = some (generateSVG data options) := by
  unfold generateSVGChecked
  rw [if_pos]
  unfold squaresOk
  rw [List.all_eq_true]
  intro w _
  rw [List.all_eq_true]
  intro d _
  exact cellColor_isSome _ hcolors _

/-- Witness for C9: a one-week, one-day calendar under default options. -/
theorem generateSVG_total_witness :
    generateSVGChecked
        { weeks := [{ contributionDays :=
            [{ date := "2024-01-05", contributionCount := 3, color := "#40c463",
               weekday := 5 }], firstDay := "2024-01-05" }],
          totalContributions := 3 } {} =
      some (generateSVG
        { weeks := [{ contributionDays :=
            [{ date := "2024-01-05", contributionCount := 3, color := "#40c463",
               weekday := 5 }], firstDay := "2024-01-05" }],
          totalContributions := 3 } {}) :=
  generateSVG_total _ {} (by decide) (by decide)

/-! ### Maximum statistic (C5) -/

lemma foldl_max_withBot (l : List Int) :
    ∀ acc : WithBot Int,
      l.foldl (fun acc (c : Int) => max acc (c : WithBot Int)) acc =
        max acc l.maximum := by
  induction l with
  | nil =>
    intro acc
    rw [List.maximum_nil]
    exact (max_eq_left bot_le).symm
  | cons c cs ih =>
    intro acc
    simp only [List.foldl_cons]
    rw [ih, List.maximum_cons, max_assoc]

lemma jsMathMax_eq_maximum (l : List Int) : jsMathMax l = l.maximum := by
  unfold jsMathMax
  rw [foldl_max_withBot]
  exact max_eq_right bot_le

/-- C5 counterexample: on an empty calendar the flattened day list is empty
and the `maxContributions` statistic is JavaScript's `Math.max()` of no
arguments, i.e. `-Infinity` (modeled `⊥`), not 0 as the claim states. -/
theorem processContributionData_empty_max_counterexample :
    (processContributionDataForHeatmap
        { totalContributions := 0, weeks := [] }).stats.maxContributions = ⊥ ∧
    (⊥ : WithBot Int) ≠ (0 : WithBot Int) := by
  constructor
  · rfl
  · decide

/-- C5 (amended): the `maxContributions` statistic equals the maximum of the
contribution counts over the flattened day list when that list is non-empty,
and equals `-Infinity` (`⊥`, JavaScript's `Math.max()` of zero arguments) —
not 0 — when it is empty.  `List.maximum` is exactly this function. -/
theorem processContributionData_max (cal : ContributionCalendar) :
    (processContributionDataForHeatmap cal).stats.maxContributions =
      ((cal.weeks.flatMap (·.contributionDays)).map (·.contributionCount)).maximum ∧
    (cal.weeks.flatMap (·.contributionDays) = [] →
      (processContributionDataForHeatmap cal).stats.maxContributions = ⊥) := by
  have hmax : (processContributionDataForHeatmap cal).stats.maxContributions =
      jsMathMax ((cal.weeks.flatMap (·.contributionDays)).map
        (·.contributionCount)) := rfl
  constructor
  · rw [hmax, jsMathMax_eq_maximum]
  · intro h
    rw [hmax, h]
    rfl

end GhHeatmap
